import Mathlib

/-!
# Verification of the Altair consensus helpers

A shallow embedding of `src/src/altair/helpers.rs` (the Altair-fork consensus
helpers: participation flags, sync-committee sampling, reward/penalty deltas,
and the slashing procedure), together with theorems settling the frozen claims
about that file.

Conventions of the embedding:
* Machine integers (`u64`, `usize`, `u8` values) are modelled as `Nat`; the
  quantities involved (balances, epochs, rewards) stay far below `2 ^ 64` at
  every input used here, so wrap-around never matters.
* Fallible Rust functions returning `Result` are modelled as `Except Error`.
  A Rust runtime panic (remainder by a zero divisor, an out-of-bounds index,
  `.expect` on an `Err`) is modelled as the distinguished outcome
  `Error.panic`: it is an abnormal termination, not a typed error value.
* The unbounded `while` loop of the sync-committee sampler is modelled with
  explicit fuel; `Outcome.outOfFuel` for every fuel value means the source
  loop never terminates.
* External collaborators (state accessors, hashing, shuffling, key
  aggregation: all outside `src/`) are a bundle of abstract functions, the
  structure `Accessors`.  Theorems quantify over the bundle, constraining it only by
  the contracts the specification states for the collaborators.
-/

set_option maxHeartbeats 1000000

/-- A checkpoint: an (epoch, root) pair.  Roots are abstract 32-byte values,
modelled as `Nat`. -/
structure Checkpoint where
  epoch : Nat
  root : Nat
deriving DecidableEq, Repr

/-- The slice of a validator record read or written by the helpers:
public key, effective balance, slashed flag, and the exit fields. -/
structure Validator where
  public_key : Nat
  effective_balance : Nat
  slashed : Bool
  exit_epoch : Nat
  withdrawable_epoch : Nat
deriving DecidableEq, Repr

/-- Placeholder record used only as the default of `List.getD`; every read in
the development is guarded so the default is never observed. -/
def defaultValidator : Validator :=
  { public_key := 0, effective_balance := 0, slashed := false,
    exit_epoch := 0, withdrawable_epoch := 0 }

/-- The slice of the beacon state the helpers touch. -/
structure BeaconState where
  validators : List Validator
  balances : List Nat
  previous_epoch_participation : List Nat
  current_epoch_participation : List Nat
  inactivity_scores : List Nat
  slashings : List Nat
  previous_justified_checkpoint : Checkpoint
  current_justified_checkpoint : Checkpoint
deriving DecidableEq, Repr

/-- Attestation data: slot, head block root, and the source/target
checkpoints. -/
structure AttestationData where
  slot : Nat
  beacon_block_root : Nat
  source : Checkpoint
  target : Checkpoint
deriving DecidableEq, Repr

/-- A sync committee: the member public keys plus one aggregate key.  The
source stores the keys in a fixed-capacity ssz vector; the embedding keeps
the underlying element sequence. -/
structure SyncCommittee where
  public_keys : List Nat
  aggregate_public_key : Nat
deriving DecidableEq, Repr

/-- The error taxonomy of the helpers, plus `panic` for a Rust runtime panic
(an abnormal termination that is not a typed error value). -/
inductive Error where
  | invalidEpoch (requested previous current : Nat)
  | invalidSource (expected source_checkpoint : Checkpoint) (current : Nat)
  | emptyActiveSet
  | shuffleOutOfRange
  | aggregationError
  | forkConfigError (epoch : Nat)
  | noProposer
  | panic
deriving DecidableEq, Repr

/-- Result of running a fuelled computation: a value, a typed error or panic,
or fuel exhaustion (used to express non-termination of the source loop). -/
inductive Outcome (α : Type) where
  | ok (value : α)
  | error (e : Error)
  | outOfFuel
deriving DecidableEq, Repr

/-- The per-fork configuration object.  The last three fields mirror the
constants `PARTICIPATION_FLAG_WEIGHTS`, `WEIGHT_DENOMINATOR` and
`PROPOSER_WEIGHT` of `crate::altair`; that module is outside `src/`, and the
specification places the weight table and the weight constants in the
configuration, so they are modelled from the spec as configuration fields. -/
structure Context where
  sync_committee_size : Nat
  max_effective_balance : Nat
  effective_balance_increment : Nat
  base_reward_factor : Nat
  slots_per_epoch : Nat
  min_attestation_inclusion_delay : Nat
  epochs_per_slashings_vector : Nat
  whistleblower_reward_quotient : Nat
  inactivity_score_bias : Nat
  min_slashing_penalty_quotient : Nat → Option Nat
  inactivity_penalty_quotient : Nat → Option Nat
  participation_flag_weights : Nat → Nat
  weight_denominator : Nat
  proposer_weight : Nat

/-- The external collaborators of the helpers (state accessors, hashing,
shuffling, key aggregation), all defined outside `src/`.  `hashDigest s c` is
the 32-byte digest `hash(s ‖ le_bytes64(c))`; `shuffle` is the underlying
shuffling permutation, wrapped by `compute_shuffled_index` below. -/
structure Accessors where
  currentEpoch : BeaconState → Context → Nat
  previousEpoch : BeaconState → Context → Nat
  activeValidatorIndices : BeaconState → Nat → List Nat
  getSeed : BeaconState → Nat → Nat → Context → Nat
  shuffle : Nat → Nat → Nat → Context → Nat
  hashDigest : Nat → Nat → List Nat
  totalActiveBalance : BeaconState → Context → Except Error Nat
  totalBalance : BeaconState → List Nat → Context → Except Error Nat
  blockRoot : BeaconState → Nat → Context → Except Error Nat
  blockRootAtSlot : BeaconState → Nat → Except Error Nat
  beaconProposerIndex : BeaconState → Context → Except Error Nat
  eligibleValidatorIndices : BeaconState → Context → List Nat
  isInInactivityLeak : BeaconState → Context → Bool
  initiateValidatorExit : BeaconState → Nat → Context → BeaconState
  aggregatePubkeys : List Nat → Except Error Nat

/-- `crate::altair::TIMELY_SOURCE_FLAG_INDEX` (outside `src/`); the spec fixes
bit position 0 for the source flag. -/
def TIMELY_SOURCE_FLAG_INDEX : Nat := 0

/-- `crate::altair::TIMELY_TARGET_FLAG_INDEX`; bit position 1. -/
def TIMELY_TARGET_FLAG_INDEX : Nat := 1

/-- `crate::altair::TIMELY_HEAD_FLAG_INDEX`; bit position 2. -/
def TIMELY_HEAD_FLAG_INDEX : Nat := 2

/-- The domain-separation tag `DomainType::SyncCommittee`, an abstract constant
passed to the seed accessor. -/
def DOMAIN_SYNC_COMMITTEE : Nat := 7

/-- `u8::MAX as u64` from the sampler (helpers.rs line 56). -/
def max_random_byte : Nat := 255

/-- The floor integer square root used by the source (the `integer_sqrt`
crate's `IntegerSquareRoot`), written as a linear scan so it evaluates by
kernel reduction: the largest `k ≤ n` with `k * k ≤ n`. -/
def integer_sqrt (n : Nat) : Nat :=
  (List.range (n + 1)).foldl (fun acc k => if k * k ≤ n then k else acc) 0

/-- `add_flag` (helpers.rs lines 20-24): set bit `flag_index`. -/
def add_flag (flags : Nat) (flag_index : Nat) : Nat :=
  let flag := 2 ^ flag_index
  flags ||| flag

/-- `has_flag` (helpers.rs lines 26-30): test bit `flag_index`. -/
def has_flag (flags : Nat) (flag_index : Nat) : Bool :=
  let flag := 2 ^ flag_index
  flags &&& flag == flag

/-- Modelled from the spec: the collaborator contract
`shuffled-index(i, count, seed)` fails on `count == 0` (the spec names this
failure `EmptyActiveSet`, "shuffle division by zero") or on `i >= count`;
otherwise it applies the underlying permutation `ext.shuffle`. -/
def compute_shuffled_index (ext : Accessors) (i count seed : Nat) (context : Context) :
    Except Error Nat :=
  if count = 0 then .error .emptyActiveSet
  else if count ≤ i then .error .shuffleOutOfRange
  else .ok (ext.shuffle i count seed context)

/-- The sampling loop of `get_next_sync_committee_indices`
(helpers.rs lines 65-82), with explicit fuel.

The source declares the counter as `let i = 0;` — immutable — and never
increments it, so the recursive call passes `i` through unchanged.  The
source computes `i % active_validator_count` before calling the shuffle; in
Rust that remainder panics when the active set is empty, which pre-empts the
shuffle's own `count == 0` failure, hence the explicit `Error.panic` branch.
`random_byte` is byte `i % 32` of `hash(seed ‖ le_bytes64(i / 32))`
(helpers.rs lines 74-76). -/
def sync_committee_sample_loop (ext : Accessors) (state : BeaconState) (context : Context)
    (active : List Nat) (seed : Nat) :
    Nat → Nat → List Nat → Outcome (List Nat)
  | 0, _, acc =>
    if acc.length < context.sync_committee_size then .outOfFuel else .ok acc
  | fuel + 1, i, acc =>
    if acc.length < context.sync_committee_size then
      if active.length = 0 then .error .panic
      else
        match compute_shuffled_index ext (i % active.length) active.length seed context with
        | .error e => .error e
        | .ok shuffled_index =>
          match active.get? shuffled_index with
          | none => .error .panic
          | some candidate_index =>
            match state.validators.get? candidate_index with
            | none => .error .panic
            | some validator =>
              let random_byte := (ext.hashDigest seed (i / 32)).getD (i % 32) 0
              let effective_balance := validator.effective_balance
              let next_acc :=
                if context.max_effective_balance * random_byte ≤
                    effective_balance * max_random_byte then
                  acc ++ [candidate_index]
                else acc
              sync_committee_sample_loop ext state context active seed fuel i next_acc
    else .ok acc

/-- `get_next_sync_committee_indices` (helpers.rs lines 32-84): sample the
next sync committee for epoch `current + 1` by balance-weighted rejection
sampling, starting the loop at counter 0 with an empty output. -/
def get_next_sync_committee_indices (ext : Accessors) (state : BeaconState)
    (context : Context) (fuel : Nat) : Outcome (List Nat) :=
  let epoch := ext.currentEpoch state context + 1
  let active_validator_indices := ext.activeValidatorIndices state epoch
  let seed := ext.getSeed state epoch DOMAIN_SYNC_COMMITTEE context
  sync_committee_sample_loop ext state context active_validator_indices seed fuel 0 []

/-- Modelled from the spec (§4.2), solely to exhibit the divergence of claim
C2: the same rejection-sampling loop but with the counter incremented
unconditionally on every iteration, accepted or not, as the specification
describes. -/
def sync_committee_sample_loop_spec (ext : Accessors) (state : BeaconState) (context : Context)
    (active : List Nat) (seed : Nat) :
    Nat → Nat → List Nat → Outcome (List Nat)
  | 0, _, acc =>
    if acc.length < context.sync_committee_size then .outOfFuel else .ok acc
  | fuel + 1, i, acc =>
    if acc.length < context.sync_committee_size then
      if active.length = 0 then .error .panic
      else
        match compute_shuffled_index ext (i % active.length) active.length seed context with
        | .error e => .error e
        | .ok shuffled_index =>
          match active.get? shuffled_index with
          | none => .error .panic
          | some candidate_index =>
            match state.validators.get? candidate_index with
            | none => .error .panic
            | some validator =>
              let random_byte := (ext.hashDigest seed (i / 32)).getD (i % 32) 0
              let effective_balance := validator.effective_balance
              let next_acc :=
                if context.max_effective_balance * random_byte ≤
                    effective_balance * max_random_byte then
                  acc ++ [candidate_index]
                else acc
              sync_committee_sample_loop_spec ext state context active seed fuel (i + 1) next_acc
    else .ok acc

/-- Entry point of the spec-modelled sampler used for the C2 comparison. -/
def get_next_sync_committee_indices_spec (ext : Accessors) (state : BeaconState)
    (context : Context) (fuel : Nat) : Outcome (List Nat) :=
  let epoch := ext.currentEpoch state context + 1
  let active_validator_indices := ext.activeValidatorIndices state epoch
  let seed := ext.getSeed state epoch DOMAIN_SYNC_COMMITTEE context
  sync_committee_sample_loop_spec ext state context active_validator_indices seed fuel 0 []

/-- The key sequence `get_next_sync_committee` builds (helpers.rs lines
110-121): iterate the validator registry in index order and keep the key of
every validator whose index occurs in `indices`.  (Note this deduplicates and
reorders the sampled sequence.) -/
def committee_public_keys (state : BeaconState) (indices : List Nat) : List Nat :=
  state.validators.enum.filterMap fun iv =>
    if indices.contains iv.1 then some iv.2.public_key else none

/-- `get_next_sync_committee` (helpers.rs lines 86-136): sample indices, build
the key sequence, aggregate.  The source unwraps the aggregation result with
`.expect(..)`, which panics on an aggregation failure (lines 124-125). -/
def get_next_sync_committee (ext : Accessors) (state : BeaconState) (context : Context)
    (fuel : Nat) : Outcome SyncCommittee :=
  match get_next_sync_committee_indices ext state context fuel with
  | .outOfFuel => .outOfFuel
  | .error e => .error e
  | .ok indices =>
    let public_keys := committee_public_keys state indices
    match ext.aggregatePubkeys public_keys with
    | .error _ => .error .panic
    | .ok aggregate_public_key =>
      .ok { public_keys := public_keys, aggregate_public_key := aggregate_public_key }

/-! ## Concrete fixtures

Shared concrete instantiations of the abstract collaborators and small
states, used for counterexamples and witnesses. -/

/-- A concrete collaborator bundle: identity shuffle, all-zero digests
(so every candidate passes the balance test), zero seed, sum aggregation. -/
def extBase : Accessors :=
  { currentEpoch := fun _ _ => 0
    previousEpoch := fun _ _ => 0
    activeValidatorIndices := fun state _ => List.range state.validators.length
    getSeed := fun _ _ _ _ => 0
    shuffle := fun i _ _ _ => i
    hashDigest := fun _ _ => List.replicate 32 0
    totalActiveBalance := fun _ _ => .ok 64
    totalBalance := fun _ _ _ => .ok 32
    blockRoot := fun _ _ _ => .ok 0
    blockRootAtSlot := fun _ _ => .ok 0
    beaconProposerIndex := fun _ _ => .ok 0
    eligibleValidatorIndices := fun _ _ => []
    isInInactivityLeak := fun _ _ => false
    initiateValidatorExit := fun s _ _ => s
    aggregatePubkeys := fun keys => .ok (keys.foldl (· + ·) 0) }

/-- Like `extBase` but every digest byte is 1, so a candidate with zero
effective balance fails the balance test on every iteration. -/
def extReject : Accessors := { extBase with hashDigest := fun _ _ => List.replicate 32 1 }

/-- A validator with the given key and effective balance, unslashed. -/
def mkValidator (pk eff : Nat) : Validator :=
  { public_key := pk, effective_balance := eff, slashed := false,
    exit_epoch := 0, withdrawable_epoch := 0 }

/-- Two validators at the maximum effective balance. -/
def stateTwo : BeaconState :=
  { validators := [mkValidator 10 32, mkValidator 20 32]
    balances := [100, 100]
    previous_epoch_participation := [0, 0]
    current_epoch_participation := [0, 0]
    inactivity_scores := [0, 0]
    slashings := [0]
    previous_justified_checkpoint := { epoch := 0, root := 0 }
    current_justified_checkpoint := { epoch := 0, root := 0 } }

/-- One validator with zero effective balance. -/
def stateOneZero : BeaconState :=
  { validators := [mkValidator 10 0]
    balances := [100]
    previous_epoch_participation := [0]
    current_epoch_participation := [0]
    inactivity_scores := [0]
    slashings := [0]
    previous_justified_checkpoint := { epoch := 0, root := 0 }
    current_justified_checkpoint := { epoch := 0, root := 0 } }

/-- The empty registry: no validators at all. -/
def stateEmpty : BeaconState :=
  { validators := []
    balances := []
    previous_epoch_participation := []
    current_epoch_participation := []
    inactivity_scores := []
    slashings := [0]
    previous_justified_checkpoint := { epoch := 0, root := 0 }
    current_justified_checkpoint := { epoch := 0, root := 0 } }

/-- A small configuration with committee size 2 and the canonical weight
constants (proposer weight 8, weight denominator 64). -/
def ctxBase : Context :=
  { sync_committee_size := 2
    max_effective_balance := 32
    effective_balance_increment := 1
    base_reward_factor := 1
    slots_per_epoch := 32
    min_attestation_inclusion_delay := 1
    epochs_per_slashings_vector := 1
    whistleblower_reward_quotient := 1
    inactivity_score_bias := 1
    min_slashing_penalty_quotient := fun _ => some 32
    inactivity_penalty_quotient := fun _ => some 1
    participation_flag_weights := fun _ => 14
    weight_denominator := 64
    proposer_weight := 8 }

/-- `ctxBase` with committee size 1. -/
def ctxOne : Context := { ctxBase with sync_committee_size := 1 }

/-! ## C1 — the sampler need not terminate -/

/-- On the `stateOneZero` fixture the single candidate is rejected on every
iteration (its effective balance is 0 and the random byte is 1), and since
the source never increments the counter the accumulator never grows: no
amount of fuel completes the loop. -/
theorem c1_loop_stuck (fuel : Nat) :
    sync_committee_sample_loop extReject stateOneZero ctxOne [0] 0 fuel 0 [] =
      .outOfFuel := by
  induction fuel with
  | zero => rfl
  | succ n ih => exact ih

/-- C1: the claim that `get_next_sync_committee_indices` terminates with Ok on
every state whose active set for the target epoch is non-empty is false of
the code: the counter `i` is declared immutable at 0 and never incremented,
so when the single fixed candidate fails the balance test the loop runs
forever.  Here the active set is the non-empty `[0]`, and for every fuel
value the run is cut off rather than completed. -/
theorem c1_sampler_diverges_on_nonempty_active_set (fuel : Nat) :
    get_next_sync_committee_indices extReject stateOneZero ctxOne fuel = .outOfFuel :=
  c1_loop_stuck fuel

/-! ## C2 — the counter never advances -/

/-- C2: the claim that the loop counter is incremented on every iteration is
false of the code.  With the identity shuffle, two max-balance validators and
committee size 2, the source returns `[0, 0]` — every iteration recomputes
shuffle position `0 % 2` — whereas the loop the specification describes
(counter incremented unconditionally) returns `[0, 1]`, its iteration `k`
using shuffle position `k % 2`. -/
theorem c2_counter_is_never_incremented :
    get_next_sync_committee_indices extBase stateTwo ctxBase 2 = .ok [0, 0] ∧
    get_next_sync_committee_indices_spec extBase stateTwo ctxBase 2 = .ok [0, 1] := by
  constructor <;> rfl

/-! ## C8 — the empty active set panics instead of erroring -/

/-- C8 counterexample: on a state with an empty active set (and committee size
1) the source evaluates `i % active_validator_count` with a zero divisor and
panics; the run does not produce the typed `EmptyActiveSet` error the claim
asserts. -/
theorem c8_counterexample_empty_active_set_panics :
    get_next_sync_committee_indices extBase stateEmpty ctxOne 1 = .error .panic ∧
    Error.panic ≠ Error.emptyActiveSet := by
  constructor
  · rfl
  · decide

/-- C8 amended: for every collaborator bundle, state and configuration, when
the active set for the target epoch is empty and the committee size is
positive, `get_next_sync_committee_indices` panics on the remainder-by-zero
`i % active_validator_count` (for any positive fuel) instead of returning the
typed `EmptyActiveSet` error, which the panic pre-empts. -/
theorem c8_empty_active_set_panics (ext : Accessors) (state : BeaconState)
    (context : Context) (fuel : Nat)
    (hactive : ext.activeValidatorIndices state (ext.currentEpoch state context + 1) = [])
    (hsize : 0 < context.sync_committee_size) (hfuel : 0 < fuel) :
    get_next_sync_committee_indices ext state context fuel = .error .panic := by
  match fuel, hfuel with
  | fuel + 1, _ =>
    show sync_committee_sample_loop ext state context
        (ext.activeValidatorIndices state (ext.currentEpoch state context + 1))
        (ext.getSeed state (ext.currentEpoch state context + 1) DOMAIN_SYNC_COMMITTEE context)
        (fuel + 1) 0 [] = .error .panic
    rw [hactive]
    unfold sync_committee_sample_loop
    simp [hsize]

/-- Witness for the amended C8 at a concrete empty-registry state. -/
theorem c8_empty_active_set_panics_witness :
    get_next_sync_committee_indices extBase stateEmpty ctxOne 1 = .error .panic :=
  c8_empty_active_set_panics extBase stateEmpty ctxOne 1 (by rfl) (by decide) (by decide)

/-! ## C3 — the committee keys are not the image of the sampled sequence -/

/-- C3: the claim that the returned committee's key sequence is the image of
the sampled index sequence, preserving order and duplicates, with length
exactly the committee size, is false of the code (which also contradicts its
own "with possible pubkey duplicates" comment).  On `stateTwo` the sampler
returns `[0, 0]`, whose image under the key lookup is `[10, 10]`, but the
source's `filter_map` over the enumerated registry collapses the duplicates
and returns the single key `[10]`, of length 1 ≠ committee size 2. -/
theorem c3_committee_keys_collapse_duplicates :
    get_next_sync_committee extBase stateTwo ctxBase 2 =
      .ok { public_keys := [10], aggregate_public_key := 10 } ∧
    get_next_sync_committee_indices extBase stateTwo ctxBase 2 = .ok [0, 0] ∧
    List.map (fun i => (stateTwo.validators.getD i defaultValidator).public_key) [0, 0] =
      [10, 10] ∧
    ([10] : List Nat).length ≠ ctxBase.sync_committee_size :=
  ⟨rfl, rfl, rfl, by decide⟩

/-! ## C9 — aggregation failure panics instead of erroring -/

/-- A collaborator bundle whose key aggregation rejects every input. -/
def extAggFail : Accessors :=
  { extBase with aggregatePubkeys := fun _ => .error .aggregationError }

/-- C9 counterexample: with an aggregation primitive that rejects its input,
`get_next_sync_committee` panics (the source unwraps with `.expect`) instead
of returning the typed `AggregationError` the claim asserts. -/
theorem c9_counterexample_aggregation_failure_panics :
    get_next_sync_committee extAggFail stateTwo ctxOne 1 = .error .panic ∧
    Error.panic ≠ Error.aggregationError :=
  ⟨rfl, by decide⟩

/-- C9 amended: whenever the index sampling succeeds and the aggregation
primitive rejects the key sequence, `get_next_sync_committee` panics — the
source calls `.expect` on the aggregation result — rather than returning a
typed error; in particular it never substitutes a default aggregate key. -/
theorem c9_aggregation_failure_panics (ext : Accessors) (state : BeaconState)
    (context : Context) (fuel : Nat) (indices : List Nat) (e : Error)
    (hsample : get_next_sync_committee_indices ext state context fuel = .ok indices)
    (hagg : ext.aggregatePubkeys (committee_public_keys state indices) = .error e) :
    get_next_sync_committee ext state context fuel = .error .panic := by
  unfold get_next_sync_committee
  rw [hsample]
  simp [hagg]

/-- Witness for the amended C9 at a concrete input. -/
theorem c9_aggregation_failure_panics_witness :
    get_next_sync_committee extAggFail stateTwo ctxOne 1 = .error .panic :=
  c9_aggregation_failure_panics extAggFail stateTwo ctxOne 1 [0] .aggregationError rfl rfl

/-! ## Attestation participation flags -/

/-- The justified checkpoint selected from `data.target.epoch`
(helpers.rs lines 281-285). -/
def selected_justified_checkpoint (ext : Accessors) (state : BeaconState)
    (data : AttestationData) (context : Context) : Checkpoint :=
  if data.target.epoch = ext.currentEpoch state context then
    state.current_justified_checkpoint
  else
    state.previous_justified_checkpoint

/-- The flag list built at helpers.rs lines 303-312, given the matching
booleans and the inclusion delay.  (`is_matching_source` holds whenever this
list is built, since a source mismatch returns early.) -/
def participation_flag_list (is_matching_target is_matching_head : Bool)
    (inclusion_delay : Nat) (context : Context) : List Nat :=
  let flags_source :=
    if inclusion_delay ≤ integer_sqrt context.slots_per_epoch then
      [TIMELY_SOURCE_FLAG_INDEX]
    else []
  let flags_target :=
    if is_matching_target && decide (inclusion_delay ≤ context.slots_per_epoch) then
      flags_source ++ [TIMELY_TARGET_FLAG_INDEX]
    else flags_source
  if is_matching_head &&
      decide (inclusion_delay = context.min_attestation_inclusion_delay) then
    flags_target ++ [TIMELY_HEAD_FLAG_INDEX]
  else flags_target

/-- `get_attestation_participation_flag_indices` (helpers.rs lines 256-315):
reject a source mismatch with `InvalidSource`; otherwise compute the matching
booleans in dependency order (both block-root lookups propagate their errors)
and emit the flags whose timeliness condition holds. -/
def get_attestation_participation_flag_indices (ext : Accessors) (state : BeaconState)
    (data : AttestationData) (inclusion_delay : Nat) (context : Context) :
    Except Error (List Nat) :=
  let justified_checkpoint := selected_justified_checkpoint ext state data context
  if data.source = justified_checkpoint then
    match ext.blockRoot state data.target.epoch context with
    | .error e => .error e
    | .ok target_root =>
      match ext.blockRootAtSlot state data.slot with
      | .error e => .error e
      | .ok head_root =>
        let is_matching_target : Bool := data.target.root == target_root
        let is_matching_head : Bool :=
          is_matching_target && (data.beacon_block_root == head_root)
        .ok (participation_flag_list is_matching_target is_matching_head
              inclusion_delay context)
  else
    .error (.invalidSource justified_checkpoint data.source
      (ext.currentEpoch state context))

/-! ## C6 — HEAD ⇒ TARGET holds, TARGET ⇒ SOURCE fails -/

/-- The attestation of the C6 counterexample: matching source and target,
non-matching head. -/
def dataC6 : AttestationData :=
  { slot := 0, beacon_block_root := 5,
    source := { epoch := 0, root := 0 }, target := { epoch := 0, root := 0 } }

/-- C6 counterexample: with slots_per_epoch 32 (integer square root 5) and
inclusion delay 6, a source- and target-matching attestation earns the TARGET
flag but not the SOURCE flag — delay 6 exceeds the SOURCE bound √32 = 5 but
not the TARGET bound 32 — refuting the claim that a set containing TARGET
always contains SOURCE. -/
theorem c6_counterexample_target_without_source :
    get_attestation_participation_flag_indices extBase stateTwo dataC6 6 ctxBase =
      .ok [TIMELY_TARGET_FLAG_INDEX] ∧
    TIMELY_SOURCE_FLAG_INDEX ∉ [TIMELY_TARGET_FLAG_INDEX] :=
  ⟨rfl, by decide⟩

/-- When the inclusion delay is within the SOURCE bound, the SOURCE flag is
in the built list no matter which other flags are. -/
theorem source_mem_participation_flag_list (t h : Bool) (d : Nat) (c : Context)
    (hd : d ≤ integer_sqrt c.slots_per_epoch) :
    TIMELY_SOURCE_FLAG_INDEX ∈ participation_flag_list t h d c := by
  unfold participation_flag_list
  by_cases h2 : (t && decide (d ≤ c.slots_per_epoch)) = true <;>
  by_cases h3 : (h && decide (d = c.min_attestation_inclusion_delay)) = true <;>
  simp [hd, h2, h3]

/-- If the built list contains the HEAD flag then the head condition held, so
(the head boolean implying the target boolean) the target condition holds as
well whenever the minimum inclusion delay is within the TARGET bound, and the
TARGET flag is in the list. -/
theorem target_mem_participation_flag_list_of_head (t h : Bool) (d : Nat) (c : Context)
    (hth : h = true → t = true)
    (hmin : c.min_attestation_inclusion_delay ≤ c.slots_per_epoch)
    (hmem : TIMELY_HEAD_FLAG_INDEX ∈ participation_flag_list t h d c) :
    TIMELY_TARGET_FLAG_INDEX ∈ participation_flag_list t h d c := by
  have h3 : (h && decide (d = c.min_attestation_inclusion_delay)) = true := by
    by_contra hc
    rw [Bool.not_eq_true] at hc
    unfold participation_flag_list at hmem
    by_cases h1 : d ≤ integer_sqrt c.slots_per_epoch <;>
    by_cases h2 : (t && decide (d ≤ c.slots_per_epoch)) = true <;>
    simp [h1, h2, hc, TIMELY_SOURCE_FLAG_INDEX, TIMELY_TARGET_FLAG_INDEX,
      TIMELY_HEAD_FLAG_INDEX] at hmem
  have h3p : h = true ∧ d = c.min_attestation_inclusion_delay := by
    simpa using h3
  have h2 : (t && decide (d ≤ c.slots_per_epoch)) = true := by
    simp [hth h3p.1, h3p.2, hmin]
  unfold participation_flag_list
  by_cases h1 : d ≤ integer_sqrt c.slots_per_epoch <;>
  simp [h1, h2, h3, TIMELY_SOURCE_FLAG_INDEX, TIMELY_TARGET_FLAG_INDEX,
    TIMELY_HEAD_FLAG_INDEX]

/-- If the built list contains the TARGET flag and the delay is within the
SOURCE bound then the list contains the SOURCE flag. -/
theorem source_mem_participation_flag_list_of_target (t h : Bool) (d : Nat) (c : Context)
    (hd : d ≤ integer_sqrt c.slots_per_epoch)
    (_hmem : TIMELY_TARGET_FLAG_INDEX ∈ participation_flag_list t h d c) :
    TIMELY_SOURCE_FLAG_INDEX ∈ participation_flag_list t h d c :=
  source_mem_participation_flag_list t h d c hd

/-- C6 amended: for every state, attestation and inclusion delay, if the
result contains the HEAD flag and the configured minimum inclusion delay is
at most slots_per_epoch, then it contains the TARGET flag; if it contains the
TARGET flag and the inclusion delay is at most ⌊√slots_per_epoch⌋, then it
contains the SOURCE flag (for delays between ⌊√slots_per_epoch⌋ + 1 and
slots_per_epoch, TARGET legitimately appears without SOURCE); and whenever
`data.source` differs from the selected justified checkpoint the function
returns `InvalidSource`, regardless of every other field. -/
theorem c6_flag_dependencies_and_source_mismatch (ext : Accessors)
    (state : BeaconState) (data : AttestationData) (inclusion_delay : Nat)
    (context : Context) (res : List Nat) :
    (get_attestation_participation_flag_indices ext state data inclusion_delay
          context = .ok res →
        (TIMELY_HEAD_FLAG_INDEX ∈ res →
          context.min_attestation_inclusion_delay ≤ context.slots_per_epoch →
          TIMELY_TARGET_FLAG_INDEX ∈ res) ∧
        (TIMELY_TARGET_FLAG_INDEX ∈ res →
          inclusion_delay ≤ integer_sqrt context.slots_per_epoch →
          TIMELY_SOURCE_FLAG_INDEX ∈ res)) ∧
    (data.source ≠ selected_justified_checkpoint ext state data context →
      get_attestation_participation_flag_indices ext state data inclusion_delay
          context =
        .error (.invalidSource (selected_justified_checkpoint ext state data context)
          data.source (ext.currentEpoch state context))) := by
  constructor
  · intro hres
    unfold get_attestation_participation_flag_indices at hres
    by_cases hsrc : data.source = selected_justified_checkpoint ext state data context
    · rw [if_pos hsrc] at hres
      cases hbr : ext.blockRoot state data.target.epoch context with
      | error e => rw [hbr] at hres; exact absurd hres (by simp)
      | ok target_root =>
        rw [hbr] at hres
        cases hbrs : ext.blockRootAtSlot state data.slot with
        | error e => rw [hbrs] at hres; exact absurd hres (by simp)
        | ok head_root =>
          rw [hbrs] at hres
          simp only [Outcome.ok.injEq] at hres
          have hres2 : res = participation_flag_list (data.target.root == target_root)
              ((data.target.root == target_root) && (data.beacon_block_root == head_root))
              inclusion_delay context := by
            exact (Except.ok.inj hres).symm
          subst hres2
          constructor
          · intro hmem hmin
            exact target_mem_participation_flag_list_of_head _ _ _ _
              (fun hh => by simpa using And.left (by simpa using hh)) hmin hmem
          · intro hmem hd
            exact source_mem_participation_flag_list_of_target _ _ _ _ hd hmem
    · rw [if_neg hsrc] at hres
      exact absurd hres (by simp)
  · intro hne
    unfold get_attestation_participation_flag_indices
    rw [if_neg hne]

/-! ## Reward/penalty engine -/

/-- `get_base_reward_per_increment` (helpers.rs lines 138-164). -/
def get_base_reward_per_increment (ext : Accessors) (state : BeaconState)
    (context : Context) : Except Error Nat :=
  match ext.totalActiveBalance state context with
  | .error e => .error e
  | .ok total_active_balance =>
    .ok (context.effective_balance_increment * context.base_reward_factor /
      integer_sqrt total_active_balance)

/-- `get_base_reward` (helpers.rs lines 166-193): the validator lookup panics
when the index is out of range. -/
def get_base_reward (ext : Accessors) (state : BeaconState) (index : Nat)
    (context : Context) : Except Error Nat :=
  match state.validators.get? index with
  | none => .error .panic
  | some validator =>
    let increments :=
      validator.effective_balance / context.effective_balance_increment
    match get_base_reward_per_increment ext state context with
    | .error e => .error e
    | .ok per_increment => .ok (increments * per_increment)

/-- `get_unslashed_participating_indices` (helpers.rs lines 195-254).  The
source returns a `HashSet`, used downstream only through `contains` and the
total-balance accessor; the embedding returns its duplicate-free element list
in validator order.  The participation read `epoch_participation[i]` panics
when an active index is out of range, hence the guard. -/
def get_unslashed_participating_indices (ext : Accessors) (state : BeaconState)
    (flag_index : Nat) (epoch : Nat) (context : Context) :
    Except Error (List Nat) :=
  let previous_epoch := ext.previousEpoch state context
  let current_epoch := ext.currentEpoch state context
  if previous_epoch ≠ epoch ∧ current_epoch ≠ epoch then
    .error (.invalidEpoch epoch previous_epoch current_epoch)
  else
    let epoch_participation :=
      if epoch = current_epoch then state.current_epoch_participation
      else state.previous_epoch_participation
    let active_validator_indices := ext.activeValidatorIndices state epoch
    if active_validator_indices.all (fun i => i < epoch_participation.length) then
      let participating_indices := active_validator_indices.filterMap fun i =>
        if has_flag (epoch_participation.getD i 0) flag_index then some i else none
      .ok ((state.validators.enum.filterMap fun iv =>
        if !iv.2.slashed then some iv.1 else none).filter
          fun i => participating_indices.contains i)
    else .error .panic

/-- The per-eligible-validator loop of `get_flag_index_deltas`
(helpers.rs lines 354-365), threading the two delta arrays. -/
def flag_deltas_loop (ext : Accessors) (state : BeaconState) (context : Context)
    (flag_index : Nat) (unslashed_participating_indices : List Nat)
    (weight unslashed_participating_increments active_increments : Nat) :
    List Nat → List Nat → List Nat → Except Error (List Nat × List Nat)
  | [], rewards, penalties => .ok (rewards, penalties)
  | index :: rest, rewards, penalties =>
    match get_base_reward ext state index context with
    | .error e => .error e
    | .ok base_reward =>
      if unslashed_participating_indices.contains index then
        if ext.isInInactivityLeak state context = false then
          let reward_numerator :=
            base_reward * weight * unslashed_participating_increments
          flag_deltas_loop ext state context flag_index
            unslashed_participating_indices weight
            unslashed_participating_increments active_increments rest
            (rewards.set index (rewards.getD index 0 +
              reward_numerator /
                (active_increments * context.weight_denominator)))
            penalties
        else if flag_index ≠ TIMELY_HEAD_FLAG_INDEX then
          flag_deltas_loop ext state context flag_index
            unslashed_participating_indices weight
            unslashed_participating_increments active_increments rest
            rewards
            (penalties.set index (penalties.getD index 0 +
              base_reward * weight / context.weight_denominator))
        else
          flag_deltas_loop ext state context flag_index
            unslashed_participating_indices weight
            unslashed_participating_increments active_increments rest
            rewards penalties
      else
        flag_deltas_loop ext state context flag_index
          unslashed_participating_indices weight
          unslashed_participating_increments active_increments rest
          rewards penalties

/-- `get_flag_index_deltas` (helpers.rs lines 317-367): zero-initialised
reward and penalty arrays sized to the validator count, updated by the loop
over the eligible indices. -/
def get_flag_index_deltas (ext : Accessors) (state : BeaconState)
    (flag_index : Nat) (context : Context) :
    Except Error (List Nat × List Nat) :=
  let validator_count := state.validators.length
  let rewards := List.replicate validator_count 0
  let penalties := List.replicate validator_count 0
  let previous_epoch := ext.previousEpoch state context
  match get_unslashed_participating_indices ext state flag_index previous_epoch
      context with
  | .error e => .error e
  | .ok unslashed_participating_indices =>
    let weight := context.participation_flag_weights flag_index
    match ext.totalBalance state unslashed_participating_indices context with
    | .error e => .error e
    | .ok unslashed_participating_balance =>
      let unslashed_participating_increments :=
        unslashed_participating_balance / context.effective_balance_increment
      match ext.totalActiveBalance state context with
      | .error e => .error e
      | .ok total_active_balance =>
        let active_increments :=
          total_active_balance / context.effective_balance_increment
        flag_deltas_loop ext state context flag_index
          unslashed_participating_indices weight
          unslashed_participating_increments active_increments
          (ext.eligibleValidatorIndices state context) rewards penalties

/-! ## List helper lemmas -/

/-- Setting one index leaves `getD` at any other index unchanged. -/
theorem getD_set_ne {α : Type} (l : List α) (i j : Nat) (a d : α) (h : i ≠ j) :
    (l.set i a).getD j d = l.getD j d := by
  induction l generalizing i j with
  | nil => rfl
  | cons x xs ih =>
    cases i with
    | zero =>
      cases j with
      | zero => exact absurd rfl h
      | succ j => rfl
    | succ i =>
      cases j with
      | zero => rfl
      | succ j => exact ih i j fun hh => h (by rw [hh])

/-- Every `getD` read of an all-zero array is zero. -/
theorem getD_replicate_zero (n j : Nat) :
    (List.replicate n (0 : Nat)).getD j 0 = 0 := by
  induction n generalizing j with
  | zero => cases j <;> rfl
  | succ n ih =>
    cases j with
    | zero => rfl
    | succ j => exact ih j

/-- `contains` is false at a non-member. -/
theorem contains_eq_false_of_not_mem (l : List Nat) (j : Nat) (h : j ∉ l) :
    l.contains j = false := by
  cases hc : l.contains j with
  | false => rfl
  | true => exact absurd (by simpa using hc) h

/-! ## C5 — the flag-delta arrays are zero off the touched set -/

/-- The loop of `get_flag_index_deltas` leaves both arrays unchanged at every
index that is not visited, and likewise at every index outside the unslashed
participating set (the only branches that write touch the visited,
participating index). -/
theorem flag_deltas_loop_preserves (ext : Accessors) (state : BeaconState)
    (context : Context) (flag_index : Nat) (ups : List Nat)
    (weight upi ai : Nat) (j : Nat) :
    ∀ (idxs rewards penalties rw pn : List Nat),
      flag_deltas_loop ext state context flag_index ups weight upi ai idxs
          rewards penalties = .ok (rw, pn) →
      (j ∉ idxs ∨ ups.contains j = false) →
      rw.getD j 0 = rewards.getD j 0 ∧ pn.getD j 0 = penalties.getD j 0 := by
  intro idxs
  induction idxs with
  | nil =>
    intro rewards penalties rw pn hrun _
    unfold flag_deltas_loop at hrun
    cases hrun
    exact ⟨rfl, rfl⟩
  | cons index rest ih =>
    intro rewards penalties rw pn hrun hj
    unfold flag_deltas_loop at hrun
    cases hbr : get_base_reward ext state index context with
    | error e => simp [hbr] at hrun
    | ok base_reward =>
      simp only [hbr] at hrun
      have hjr : j ∉ rest ∨ ups.contains j = false := by
        rcases hj with hj | hj
        · exact Or.inl fun hm => hj (List.mem_cons_of_mem _ hm)
        · exact Or.inr hj
      by_cases hc : ups.contains index = true
      · have hji : index ≠ j := by
          intro he
          rcases hj with hj | hj
          · exact hj (he ▸ List.mem_cons_self index rest)
          · rw [← he] at hj; rw [hj] at hc; cases hc
        rw [if_pos hc] at hrun
        by_cases hleak : ext.isInInactivityLeak state context = false
        · rw [if_pos hleak] at hrun
          obtain ⟨h1, h2⟩ := ih _ _ _ _ hrun hjr
          rw [h1, h2, getD_set_ne _ _ _ _ _ hji]
          exact ⟨rfl, rfl⟩
        · rw [if_neg hleak] at hrun
          by_cases hflag : flag_index ≠ TIMELY_HEAD_FLAG_INDEX
          · rw [if_pos hflag] at hrun
            obtain ⟨h1, h2⟩ := ih _ _ _ _ hrun hjr
            rw [h1, h2, getD_set_ne _ _ _ _ _ hji]
            exact ⟨rfl, rfl⟩
          · rw [if_neg hflag] at hrun
            exact ih _ _ _ _ hrun hjr
      · rw [if_neg hc] at hrun
        exact ih _ _ _ _ hrun hjr

/-- During an inactivity leak the loop never writes the rewards array. -/
theorem flag_deltas_loop_leak_rewards (ext : Accessors) (state : BeaconState)
    (context : Context) (flag_index : Nat) (ups : List Nat)
    (weight upi ai : Nat)
    (hleak : ext.isInInactivityLeak state context = true) :
    ∀ (idxs rewards penalties rw pn : List Nat),
      flag_deltas_loop ext state context flag_index ups weight upi ai idxs
          rewards penalties = .ok (rw, pn) →
      rw = rewards := by
  intro idxs
  induction idxs with
  | nil =>
    intro rewards penalties rw pn hrun
    unfold flag_deltas_loop at hrun
    cases hrun
    rfl
  | cons index rest ih =>
    intro rewards penalties rw pn hrun
    unfold flag_deltas_loop at hrun
    cases hbr : get_base_reward ext state index context with
    | error e => simp [hbr] at hrun
    | ok base_reward =>
      simp only [hbr] at hrun
      have hnotfalse : ¬ ext.isInInactivityLeak state context = false := by
        rw [hleak]; simp
      by_cases hc : ups.contains index = true
      · rw [if_pos hc, if_neg hnotfalse] at hrun
        by_cases hflag : flag_index ≠ TIMELY_HEAD_FLAG_INDEX
        · rw [if_pos hflag] at hrun
          exact ih _ _ _ _ hrun
        · rw [if_neg hflag] at hrun
          exact ih _ _ _ _ hrun
      · rw [if_neg hc] at hrun
        exact ih _ _ _ _ hrun

/-- C5: for every collaborator bundle, state, configuration and flag, when
`get_flag_index_deltas` succeeds (with `ups` the unslashed participating set
it consults), an index outside the eligible set keeps both its reward and
its penalty entry at zero; during an inactivity leak every rewards entry is
zero; and an eligible index outside the unslashed participating set receives
neither reward nor penalty. -/
theorem c5_flag_deltas_zero_off_touched_set (ext : Accessors)
    (state : BeaconState) (context : Context) (flag_index : Nat)
    (rw pn ups : List Nat) (j : Nat)
    (hres : get_flag_index_deltas ext state flag_index context = .ok (rw, pn))
    (hups : get_unslashed_participating_indices ext state flag_index
      (ext.previousEpoch state context) context = .ok ups) :
    (j ∉ ext.eligibleValidatorIndices state context →
      rw.getD j 0 = 0 ∧ pn.getD j 0 = 0) ∧
    (ext.isInInactivityLeak state context = true → rw.getD j 0 = 0) ∧
    (j ∉ ups → rw.getD j 0 = 0 ∧ pn.getD j 0 = 0) := by
  unfold get_flag_index_deltas at hres
  simp only [hups] at hres
  cases htb : ext.totalBalance state ups context with
  | error e => simp [htb] at hres
  | ok upb =>
    simp only [htb] at hres
    cases hta : ext.totalActiveBalance state context with
    | error e => simp [hta] at hres
    | ok tab =>
      simp only [hta] at hres
      refine ⟨?_, ?_, ?_⟩
      · intro hj
        obtain ⟨h1, h2⟩ :=
          flag_deltas_loop_preserves _ _ _ _ _ _ _ _ j _ _ _ _ _ hres (Or.inl hj)
        rw [h1, h2, getD_replicate_zero]
        exact ⟨rfl, rfl⟩
      · intro hleak
        have hrw :=
          flag_deltas_loop_leak_rewards _ _ _ _ _ _ _ _ hleak _ _ _ _ _ hres
        rw [hrw, getD_replicate_zero]
      · intro hj
        obtain ⟨h1, h2⟩ :=
          flag_deltas_loop_preserves _ _ _ _ _ _ _ _ j _ _ _ _ _ hres
            (Or.inr (contains_eq_false_of_not_mem ups j hj))
        rw [h1, h2, getD_replicate_zero]
        exact ⟨rfl, rfl⟩

/-- Fixture for the C5 witness: index 0 is eligible and participates for
flag 0; the chain is in an inactivity leak. -/
def extC5 : Accessors :=
  { extBase with
    eligibleValidatorIndices := fun _ _ => [0]
    isInInactivityLeak := fun _ _ => true }

/-- State for the C5 witness: validator 0 has the source flag set in the
current-epoch participation register. -/
def stateC5 : BeaconState :=
  { stateTwo with current_epoch_participation := [1, 0] }

/-! ## Slashing processor -/

/-- Modelled from the spec: the `increase-balance(state, index, amount)`
accessor (outside `src/`), adding to one balance entry. -/
def increase_balance (state : BeaconState) (index : Nat) (delta : Nat) :
    BeaconState :=
  { state with
    balances := state.balances.set index (state.balances.getD index 0 + delta) }

/-- Modelled from the spec: the `decrease-balance(state, index, amount)`
accessor (outside `src/`); the canonical accessor floors the balance at zero,
which truncated `Nat` subtraction renders. -/
def decrease_balance (state : BeaconState) (index : Nat) (delta : Nat) :
    BeaconState :=
  { state with
    balances := state.balances.set index (state.balances.getD index 0 - delta) }

/-- The framing contract of the delegated `initiate_validator_exit` accessor
(outside `src/`): it may touch only the exit fields (`exit_epoch`,
`withdrawable_epoch`) of the targeted validator record, and nothing else in
the state. -/
def InitiateExitFrame (f : BeaconState → Nat → Context → BeaconState) : Prop :=
  ∀ (s : BeaconState) (i : Nat) (c : Context),
    (f s i c).balances = s.balances ∧
    (f s i c).slashings = s.slashings ∧
    (f s i c).previous_epoch_participation = s.previous_epoch_participation ∧
    (f s i c).current_epoch_participation = s.current_epoch_participation ∧
    (f s i c).inactivity_scores = s.inactivity_scores ∧
    (f s i c).previous_justified_checkpoint = s.previous_justified_checkpoint ∧
    (f s i c).current_justified_checkpoint = s.current_justified_checkpoint ∧
    (f s i c).validators.length = s.validators.length ∧
    (∀ j, j ≠ i → (f s i c).validators.get? j = s.validators.get? j) ∧
    ((f s i c).validators.getD i defaultValidator).public_key =
      (s.validators.getD i defaultValidator).public_key ∧
    ((f s i c).validators.getD i defaultValidator).effective_balance =
      (s.validators.getD i defaultValidator).effective_balance ∧
    ((f s i c).validators.getD i defaultValidator).slashed =
      (s.validators.getD i defaultValidator).slashed

/-- The identity accessor — a valid (idempotent, already-exiting) exit
initiator — satisfies the framing contract. -/
theorem initiate_id_frame : InitiateExitFrame (fun s _ _ => s) := fun _ _ _ =>
  ⟨rfl, rfl, rfl, rfl, rfl, rfl, rfl, rfl, fun _ _ => rfl, rfl, rfl, rfl⟩

/-- `slash_validator` (helpers.rs lines 415-472), straight-line and
sequential: initiate exit, set the slashed flag, extend the withdrawable
epoch to at least one slashings cycle, add the effective balance into the
circular slashings accumulator (indexed by the const generic
`EPOCHS_PER_SLASHINGS_VECTOR`, the length of `state.slashings`), apply the
immediate penalty, then split the whistleblower reward with the proposer.
The validator indexing panics when `slashed_index` is out of range, hence
the guard.  All three effective-balance reads (helpers.rs lines 447, 452,
460) see the same value, since no step in between changes it. -/
def slash_validator (ext : Accessors) (state0 : BeaconState) (slashed_index : Nat)
    (whistleblower_index : Option Nat) (context : Context) :
    Except Error BeaconState :=
  let epoch := ext.currentEpoch state0 context
  let state1 := ext.initiateValidatorExit state0 slashed_index context
  if slashed_index < state1.validators.length then
    let v1 := state1.validators.getD slashed_index defaultValidator
    let state2 := { state1 with
      validators := state1.validators.set slashed_index { v1 with slashed := true } }
    let v2 := state2.validators.getD slashed_index defaultValidator
    let state3 := { state2 with
      validators := state2.validators.set slashed_index
        { v2 with
          withdrawable_epoch :=
            max v2.withdrawable_epoch
              (epoch + context.epochs_per_slashings_vector) } }
    let slashings_index := epoch % state3.slashings.length
    let effective_balance :=
      (state3.validators.getD slashed_index defaultValidator).effective_balance
    let state4 := { state3 with
      slashings := state3.slashings.set slashings_index
        (state3.slashings.getD slashings_index 0 + effective_balance) }
    match context.min_slashing_penalty_quotient epoch with
    | none => .error (.forkConfigError epoch)
    | some min_slashing_penalty_quotient =>
      let state5 := decrease_balance state4 slashed_index
        (effective_balance / min_slashing_penalty_quotient)
      match ext.beaconProposerIndex state5 context with
      | .error e => .error e
      | .ok proposer_index =>
        let whistleblower_index := whistleblower_index.getD proposer_index
        let whistleblower_reward :=
          (state5.validators.getD slashed_index defaultValidator).effective_balance /
            context.whistleblower_reward_quotient
        let proposer_reward_scaling_factor :=
          context.proposer_weight / context.weight_denominator
        let proposer_reward := whistleblower_reward * proposer_reward_scaling_factor
        let state6 := increase_balance state5 proposer_index proposer_reward
        let state7 := increase_balance state6 whistleblower_index
          (whistleblower_reward - proposer_reward)
        .ok state7
  else .error .panic

/-- The net effect of `slash_validator` on the targeted validator record:
slashed flag set, withdrawable epoch extended to at least `lockup`. -/
def apply_slash_validator_record (validators : List Validator) (i : Nat)
    (lockup : Nat) : List Validator :=
  let v := validators.getD i defaultValidator
  validators.set i
    { v with slashed := true, withdrawable_epoch := max v.withdrawable_epoch lockup }

/-- The net effect of `slash_validator` on the balances: the immediate
penalty on the slashed validator, then the proposer credit, then the
whistleblower credit. -/
def apply_slash_balances (balances : List Nat) (slashed_index penalty p
    proposer_reward w whistleblower_credit : Nat) : List Nat :=
  let b1 := balances.set slashed_index (balances.getD slashed_index 0 - penalty)
  let b2 := b1.set p (b1.getD p 0 + proposer_reward)
  b2.set w (b2.getD w 0 + whistleblower_credit)

/-- Setting index `i` makes `getD` at `i` return the new value (for `i` in
range). -/
theorem getD_set_self {α : Type} {l : List α} {i : Nat} (a d : α)
    (h : i < l.length) : (l.set i a).getD i d = a := by
  induction l generalizing i with
  | nil => cases h
  | cons x xs ih =>
    cases i with
    | zero => rfl
    | succ i => exact ih (Nat.lt_of_succ_lt_succ h)

/-- Setting one index leaves `get?` at any other index unchanged. -/
theorem get_q_set_ne {α : Type} (l : List α) (i j : Nat) (a : α) (h : i ≠ j) :
    (l.set i a).get? j = l.get? j := by
  induction l generalizing i j with
  | nil => rfl
  | cons x xs ih =>
    cases i with
    | zero =>
      cases j with
      | zero => exact absurd rfl h
      | succ j => rfl
    | succ i =>
      cases j with
      | zero => rfl
      | succ j => exact ih i j fun hh => h (by rw [hh])

/-- Characterisation of a successful `slash_validator` run, phrased over the
state produced by the delegated exit initiation (`state1` in the source):
given the in-range slashed index, a defined penalty quotient and a proposer
accessor resolving to `p`, the call returns exactly the state obtained by the
record update, the slashings-accumulator update and the balance updates. -/
theorem slash_validator_run (ext : Accessors) (state0 : BeaconState)
    (slashed_index : Nat) (wb : Option Nat) (context : Context) (q p : Nat)
    (hlen1 : slashed_index <
      (ext.initiateValidatorExit state0 slashed_index context).validators.length)
    (hq : context.min_slashing_penalty_quotient (ext.currentEpoch state0 context) =
      some q)
    (hp : ∀ s, ext.beaconProposerIndex s context = .ok p) :
    slash_validator ext state0 slashed_index wb context = .ok
      { validators := apply_slash_validator_record
          (ext.initiateValidatorExit state0 slashed_index context).validators
          slashed_index
          (ext.currentEpoch state0 context + context.epochs_per_slashings_vector)
        balances := apply_slash_balances
          (ext.initiateValidatorExit state0 slashed_index context).balances
          slashed_index
          (((ext.initiateValidatorExit state0 slashed_index context).validators.getD
              slashed_index defaultValidator).effective_balance / q)
          p
          (((ext.initiateValidatorExit state0 slashed_index context).validators.getD
              slashed_index defaultValidator).effective_balance /
              context.whistleblower_reward_quotient *
            (context.proposer_weight / context.weight_denominator))
          (wb.getD p)
          (((ext.initiateValidatorExit state0 slashed_index context).validators.getD
              slashed_index defaultValidator).effective_balance /
              context.whistleblower_reward_quotient -
            ((ext.initiateValidatorExit state0 slashed_index context).validators.getD
              slashed_index defaultValidator).effective_balance /
              context.whistleblower_reward_quotient *
            (context.proposer_weight / context.weight_denominator))
        previous_epoch_participation :=
          (ext.initiateValidatorExit state0 slashed_index context).previous_epoch_participation
        current_epoch_participation :=
          (ext.initiateValidatorExit state0 slashed_index context).current_epoch_participation
        inactivity_scores :=
          (ext.initiateValidatorExit state0 slashed_index context).inactivity_scores
        slashings :=
          (ext.initiateValidatorExit state0 slashed_index context).slashings.set
            (ext.currentEpoch state0 context %
              (ext.initiateValidatorExit state0 slashed_index context).slashings.length)
            ((ext.initiateValidatorExit state0 slashed_index context).slashings.getD
              (ext.currentEpoch state0 context %
                (ext.initiateValidatorExit state0 slashed_index context).slashings.length)
              0 +
              ((ext.initiateValidatorExit state0 slashed_index context).validators.getD
                slashed_index defaultValidator).effective_balance)
        previous_justified_checkpoint :=
          (ext.initiateValidatorExit state0 slashed_index context).previous_justified_checkpoint
        current_justified_checkpoint :=
          (ext.initiateValidatorExit state0 slashed_index context).current_justified_checkpoint } := by
  simp only [slash_validator, increase_balance, decrease_balance, hq, hp]
  rw [if_pos hlen1]
  simp only [apply_slash_validator_record, apply_slash_balances]
  simp [getD_set_self, List.length_set, hlen1, List.set_set]

/-- Witness for C5 at a concrete input: the deltas evaluate to zero arrays
and validator 1 (not eligible, not participating) is untouched. -/
theorem c5_flag_deltas_zero_off_touched_set_witness :
    (1 ∉ extC5.eligibleValidatorIndices stateC5 ctxBase →
      ([0, 0] : List Nat).getD 1 0 = 0 ∧ ([0, 0] : List Nat).getD 1 0 = 0) ∧
    (extC5.isInInactivityLeak stateC5 ctxBase = true →
      ([0, 0] : List Nat).getD 1 0 = 0) ∧
    (1 ∉ ([0] : List Nat) →
      ([0, 0] : List Nat).getD 1 0 = 0 ∧ ([0, 0] : List Nat).getD 1 0 = 0) :=
  c5_flag_deltas_zero_off_touched_set extC5 stateC5 ctxBase 0 [0, 0] [0, 0] [0] 1
    (by rfl) (by rfl)

/-! ## C4 — slashing postconditions -/

/-- Slashing fixture for the C4 counterexample: penalty quotient 64 and
whistleblower-reward quotient 1. -/
def ctxSlash : Context :=
  { ctxBase with
    min_slashing_penalty_quotient := fun _ => some 64
    whistleblower_reward_quotient := 1 }

/-- One validator with effective balance 64 and balance 100. -/
def stateSlash : BeaconState :=
  { validators := [mkValidator 10 64]
    balances := [100]
    previous_epoch_participation := [0]
    current_epoch_participation := [0]
    inactivity_scores := [0]
    slashings := [0]
    previous_justified_checkpoint := { epoch := 0, root := 0 }
    current_justified_checkpoint := { epoch := 0, root := 0 } }

/-- C4 counterexample: when the explicit whistleblower is the slashed
validator itself, the whistleblower credit lands back on the slashed
validator's balance.  With balance 100 and penalty 64 / 64 = 1 the claim
demands a post-call balance of exactly 99, but the code produces 163 — the
balance increases, because the whistleblower reward 64 is credited to the
same account after the penalty. -/
theorem c4_counterexample_self_whistleblower :
    (slash_validator extBase stateSlash 0 (some 0) ctxSlash).map
      (fun s => s.balances.getD 0 0) = .ok 163 ∧
    stateSlash.balances.getD 0 0 -
      (stateSlash.validators.getD 0 defaultValidator).effective_balance / 64 = 99 ∧
    (163 : Nat) ≠ 99 :=
  ⟨rfl, rfl, by decide⟩

/-- C4 amended: for every collaborator bundle whose exit initiation obeys its
framing contract, every in-range slashed index whose penalty quotient is
defined (and positive), a proposer accessor resolving to `p`, a slashings
vector of the configured length, and a resolved whistleblower and proposer
both distinct from the slashed validator whose balance covers the penalty:
after `slash_validator` returns Ok, the slashed validator's flag is true, its
withdrawable epoch is at least `current_epoch + epochs_per_slashings_vector`,
the slashings entry at `current_epoch % epochs_per_slashings_vector` has
grown by the validator's effective balance, and the slashed validator's
balance has decreased by exactly
`effective_balance / min_slashing_penalty_quotient`. -/
theorem c4_slash_validator_postconditions (ext : Accessors) (state0 : BeaconState)
    (slashed_index : Nat) (wb : Option Nat) (context : Context) (q p : Nat)
    (sF : BeaconState)
    (hframe : InitiateExitFrame ext.initiateValidatorExit)
    (hlen : slashed_index < state0.validators.length)
    (hblen : slashed_index < state0.balances.length)
    (hq : context.min_slashing_penalty_quotient (ext.currentEpoch state0 context) =
      some q)
    (hqpos : 0 < q)
    (hp : ∀ s, ext.beaconProposerIndex s context = .ok p)
    (hslen : state0.slashings.length = context.epochs_per_slashings_vector)
    (hepos : 0 < context.epochs_per_slashings_vector)
    (hpne : p ≠ slashed_index)
    (hwne : wb.getD p ≠ slashed_index)
    (hpen : (state0.validators.getD slashed_index defaultValidator).effective_balance /
        q ≤ state0.balances.getD slashed_index 0)
    (hrun : slash_validator ext state0 slashed_index wb context = .ok sF) :
    (sF.validators.getD slashed_index defaultValidator).slashed = true ∧
    ext.currentEpoch state0 context + context.epochs_per_slashings_vector ≤
      (sF.validators.getD slashed_index defaultValidator).withdrawable_epoch ∧
    sF.slashings.getD
        (ext.currentEpoch state0 context % context.epochs_per_slashings_vector) 0 =
      state0.slashings.getD
        (ext.currentEpoch state0 context % context.epochs_per_slashings_vector) 0 +
        (state0.validators.getD slashed_index defaultValidator).effective_balance ∧
    sF.balances.getD slashed_index 0 +
        (state0.validators.getD slashed_index defaultValidator).effective_balance / q =
      state0.balances.getD slashed_index 0 := by
  obtain ⟨hbal, hsl, hpep, hcep, hisc, hpjc, hcjc, hvlen, hvget, hvpk, hveff, hvsl⟩ :=
    hframe state0 slashed_index context
  have hlen1 : slashed_index <
      (ext.initiateValidatorExit state0 slashed_index context).validators.length := by
    rw [hvlen]; exact hlen
  rw [slash_validator_run ext state0 slashed_index wb context q p hlen1 hq hp] at hrun
  injection hrun with hrun
  subst hrun
  refine ⟨?_, ?_, ?_, ?_⟩
  · simp only [apply_slash_validator_record]
    rw [getD_set_self _ _ hlen1]
  · simp only [apply_slash_validator_record]
    rw [getD_set_self _ _ hlen1]
    exact Nat.le_max_right _ _
  · have hidx : ext.currentEpoch state0 context % context.epochs_per_slashings_vector <
        state0.slashings.length := by
      rw [hslen]; exact Nat.mod_lt _ hepos
    simp only []
    rw [hsl, hveff, hslen, getD_set_self _ _ hidx]
  · simp only [apply_slash_balances]
    rw [hbal, hveff]
    rw [getD_set_ne _ _ _ _ _ hwne, getD_set_ne _ _ _ _ _ hpne,
      getD_set_self _ _ hblen]
    omega

/-- A proposer accessor resolving to validator 1, over the base fixture. -/
def extProposer1 : Accessors :=
  { extBase with beaconProposerIndex := fun _ _ => .ok 1 }

/-- The state `slash_validator` produces on the C4 witness input. -/
def stateC4final : BeaconState :=
  { validators :=
      [{ public_key := 10, effective_balance := 32, slashed := true,
         exit_epoch := 0, withdrawable_epoch := 1 }, mkValidator 20 32]
    balances := [99, 132]
    previous_epoch_participation := [0, 0]
    current_epoch_participation := [0, 0]
    inactivity_scores := [0, 0]
    slashings := [32]
    previous_justified_checkpoint := { epoch := 0, root := 0 }
    current_justified_checkpoint := { epoch := 0, root := 0 } }

/-- Witness for the amended C4 at a concrete input (slashed validator 0,
proposer and defaulted whistleblower 1). -/
theorem c4_slash_validator_postconditions_witness :
    (stateC4final.validators.getD 0 defaultValidator).slashed = true ∧
    extProposer1.currentEpoch stateTwo ctxBase + ctxBase.epochs_per_slashings_vector ≤
      (stateC4final.validators.getD 0 defaultValidator).withdrawable_epoch ∧
    stateC4final.slashings.getD
        (extProposer1.currentEpoch stateTwo ctxBase %
          ctxBase.epochs_per_slashings_vector) 0 =
      stateTwo.slashings.getD
        (extProposer1.currentEpoch stateTwo ctxBase %
          ctxBase.epochs_per_slashings_vector) 0 +
        (stateTwo.validators.getD 0 defaultValidator).effective_balance ∧
    stateC4final.balances.getD 0 0 +
        (stateTwo.validators.getD 0 defaultValidator).effective_balance / 32 =
      stateTwo.balances.getD 0 0 :=
  c4_slash_validator_postconditions extProposer1 stateTwo 0 none ctxBase 32 1
    stateC4final initiate_id_frame (by decide) (by decide) (by rfl) (by decide)
    (fun _ => rfl) (by rfl) (by decide) (by decide) (by decide) (by decide) (by rfl)

/-! ## C7 — the whistleblower/proposer reward split conserves the reward -/

/-- C7: with the weight constants satisfying `proposer_weight ≤
weight_denominator` (canonically 8 and 64) and positive divisors, a
successful `slash_validator` run computes `whistleblower_reward =
effective_balance / whistleblower_reward_quotient` and `proposer_reward =
whistleblower_reward * (proposer_weight / weight_denominator)` — the weight
division truncated before the multiplication, in source order — credits the
proposer `proposer_reward` and the whistleblower the remainder, the two
credits summing to exactly the whistleblower reward; and when the resolved
whistleblower is the proposer, that one balance receives the full
whistleblower reward exactly once. -/
theorem c7_whistleblower_reward_split (ext : Accessors) (state0 : BeaconState)
    (slashed_index : Nat) (wb : Option Nat) (context : Context) (q p : Nat)
    (sF : BeaconState)
    (hframe : InitiateExitFrame ext.initiateValidatorExit)
    (hlen : slashed_index < state0.validators.length)
    (hq : context.min_slashing_penalty_quotient (ext.currentEpoch state0 context) =
      some q)
    (hp : ∀ s, ext.beaconProposerIndex s context = .ok p)
    (hwd : 0 < context.weight_denominator)
    (hpw : context.proposer_weight ≤ context.weight_denominator)
    (hwq : 0 < context.whistleblower_reward_quotient)
    (hpne : p ≠ slashed_index)
    (hwne : wb.getD p ≠ slashed_index)
    (hplen : p < state0.balances.length)
    (hwlen : wb.getD p < state0.balances.length)
    (hrun : slash_validator ext state0 slashed_index wb context = .ok sF) :
    (state0.validators.getD slashed_index defaultValidator).effective_balance /
        context.whistleblower_reward_quotient *
        (context.proposer_weight / context.weight_denominator) +
      ((state0.validators.getD slashed_index defaultValidator).effective_balance /
          context.whistleblower_reward_quotient -
        (state0.validators.getD slashed_index defaultValidator).effective_balance /
          context.whistleblower_reward_quotient *
          (context.proposer_weight / context.weight_denominator)) =
      (state0.validators.getD slashed_index defaultValidator).effective_balance /
        context.whistleblower_reward_quotient ∧
    (wb.getD p ≠ p →
      sF.balances.getD p 0 = state0.balances.getD p 0 +
        (state0.validators.getD slashed_index defaultValidator).effective_balance /
          context.whistleblower_reward_quotient *
          (context.proposer_weight / context.weight_denominator) ∧
      sF.balances.getD (wb.getD p) 0 = state0.balances.getD (wb.getD p) 0 +
        ((state0.validators.getD slashed_index defaultValidator).effective_balance /
            context.whistleblower_reward_quotient -
          (state0.validators.getD slashed_index defaultValidator).effective_balance /
            context.whistleblower_reward_quotient *
            (context.proposer_weight / context.weight_denominator))) ∧
    (wb.getD p = p →
      sF.balances.getD p 0 = state0.balances.getD p 0 +
        (state0.validators.getD slashed_index defaultValidator).effective_balance /
          context.whistleblower_reward_quotient) := by
  obtain ⟨hbal, hsl, hpep, hcep, hisc, hpjc, hcjc, hvlen, hvget, hvpk, hveff, hvsl⟩ :=
    hframe state0 slashed_index context
  have hlen1 : slashed_index <
      (ext.initiateValidatorExit state0 slashed_index context).validators.length := by
    rw [hvlen]; exact hlen
  rw [slash_validator_run ext state0 slashed_index wb context q p hlen1 hq hp] at hrun
  injection hrun with hrun
  subst hrun
  have hone : context.proposer_weight / context.weight_denominator ≤ 1 := by
    have hdd := Nat.div_le_div_right (c := context.weight_denominator) hpw
    rwa [Nat.div_self hwd] at hdd
  have hprle :
      (state0.validators.getD slashed_index defaultValidator).effective_balance /
          context.whistleblower_reward_quotient *
          (context.proposer_weight / context.weight_denominator) ≤
        (state0.validators.getD slashed_index defaultValidator).effective_balance /
          context.whistleblower_reward_quotient := by
    calc (state0.validators.getD slashed_index defaultValidator).effective_balance /
            context.whistleblower_reward_quotient *
            (context.proposer_weight / context.weight_denominator) ≤
          (state0.validators.getD slashed_index defaultValidator).effective_balance /
            context.whistleblower_reward_quotient * 1 :=
        Nat.mul_le_mul_left _ hone
      _ = (state0.validators.getD slashed_index defaultValidator).effective_balance /
            context.whistleblower_reward_quotient := Nat.mul_one _
  refine ⟨by omega, ?_, ?_⟩
  · intro hne
    constructor
    · simp only [apply_slash_balances]
      rw [hbal, hveff]
      rw [getD_set_ne _ _ _ _ _ hne,
        getD_set_self _ _ (by rw [List.length_set]; exact hplen),
        getD_set_ne _ _ _ _ _ (Ne.symm hpne)]
    · simp only [apply_slash_balances]
      rw [hbal, hveff]
      rw [getD_set_self _ _ (by rw [List.length_set, List.length_set]; exact hwlen),
        getD_set_ne _ _ _ _ _ (Ne.symm hne),
        getD_set_ne _ _ _ _ _ (Ne.symm hwne)]
  · intro heq
    simp only [apply_slash_balances]
    rw [hbal, hveff, heq]
    rw [getD_set_self _ _ (by rw [List.length_set, List.length_set]; exact hplen),
      getD_set_self _ _ (by rw [List.length_set]; exact hplen),
      getD_set_ne _ _ _ _ _ (Ne.symm hpne)]
    omega

/-- Three validators at effective balance 32, balances 100, 10, 20. -/
def stateThree : BeaconState :=
  { validators := [mkValidator 10 32, mkValidator 20 32, mkValidator 30 32]
    balances := [100, 10, 20]
    previous_epoch_participation := [0, 0, 0]
    current_epoch_participation := [0, 0, 0]
    inactivity_scores := [0, 0, 0]
    slashings := [0]
    previous_justified_checkpoint := { epoch := 0, root := 0 }
    current_justified_checkpoint := { epoch := 0, root := 0 } }

/-- The state `slash_validator` produces on the C7 witness input (slashed 0,
proposer 1, whistleblower 2). -/
def stateC7final : BeaconState :=
  { validators :=
      [{ public_key := 10, effective_balance := 32, slashed := true,
         exit_epoch := 0, withdrawable_epoch := 1 },
       mkValidator 20 32, mkValidator 30 32]
    balances := [99, 10, 52]
    previous_epoch_participation := [0, 0, 0]
    current_epoch_participation := [0, 0, 0]
    inactivity_scores := [0, 0, 0]
    slashings := [32]
    previous_justified_checkpoint := { epoch := 0, root := 0 }
    current_justified_checkpoint := { epoch := 0, root := 0 } }

/-- Witness for C7 at a concrete input with distinct slashed validator,
proposer and whistleblower. -/
theorem c7_whistleblower_reward_split_witness :
    (stateThree.validators.getD 0 defaultValidator).effective_balance /
        ctxBase.whistleblower_reward_quotient *
        (ctxBase.proposer_weight / ctxBase.weight_denominator) +
      ((stateThree.validators.getD 0 defaultValidator).effective_balance /
          ctxBase.whistleblower_reward_quotient -
        (stateThree.validators.getD 0 defaultValidator).effective_balance /
          ctxBase.whistleblower_reward_quotient *
          (ctxBase.proposer_weight / ctxBase.weight_denominator)) =
      (stateThree.validators.getD 0 defaultValidator).effective_balance /
        ctxBase.whistleblower_reward_quotient ∧
    ((some 2 : Option Nat).getD 1 ≠ 1 →
      stateC7final.balances.getD 1 0 = stateThree.balances.getD 1 0 +
        (stateThree.validators.getD 0 defaultValidator).effective_balance /
          ctxBase.whistleblower_reward_quotient *
          (ctxBase.proposer_weight / ctxBase.weight_denominator) ∧
      stateC7final.balances.getD ((some 2 : Option Nat).getD 1) 0 =
        stateThree.balances.getD ((some 2 : Option Nat).getD 1) 0 +
        ((stateThree.validators.getD 0 defaultValidator).effective_balance /
            ctxBase.whistleblower_reward_quotient -
          (stateThree.validators.getD 0 defaultValidator).effective_balance /
            ctxBase.whistleblower_reward_quotient *
            (ctxBase.proposer_weight / ctxBase.weight_denominator))) ∧
    ((some 2 : Option Nat).getD 1 = 1 →
      stateC7final.balances.getD 1 0 = stateThree.balances.getD 1 0 +
        (stateThree.validators.getD 0 defaultValidator).effective_balance /
          ctxBase.whistleblower_reward_quotient) :=
  c7_whistleblower_reward_split extProposer1 stateThree 0 (some 2) ctxBase 32 1
    stateC7final initiate_id_frame (by decide) (by rfl) (fun _ => rfl) (by decide)
    (by decide) (by decide) (by decide) (by decide) (by decide) (by decide) (by rfl)

/-! ## C10 — frame of slash_validator -/

/-- C10: under the framing contract for the delegated exit initiation, a
successful `slash_validator` run changes nothing beyond: the slashed
validator's record (and within it only the slashed flag, withdrawable epoch
and exit fields — its public key and effective balance survive), the
slashings entry at `current_epoch % epochs_per_slashings_vector`, and the
balances of the slashed validator, the proposer and the resolved
whistleblower; every other validator record, slashings entry and balance,
and all remaining state fields, are unchanged. -/
theorem c10_slash_validator_frame (ext : Accessors) (state0 : BeaconState)
    (slashed_index : Nat) (wb : Option Nat) (context : Context) (q p : Nat)
    (sF : BeaconState) (j k : Nat)
    (hframe : InitiateExitFrame ext.initiateValidatorExit)
    (hlen : slashed_index < state0.validators.length)
    (hq : context.min_slashing_penalty_quotient (ext.currentEpoch state0 context) =
      some q)
    (hp : ∀ s, ext.beaconProposerIndex s context = .ok p)
    (hslen : state0.slashings.length = context.epochs_per_slashings_vector)
    (hrun : slash_validator ext state0 slashed_index wb context = .ok sF) :
    (j ≠ slashed_index → sF.validators.get? j = state0.validators.get? j) ∧
    (sF.validators.getD slashed_index defaultValidator).public_key =
      (state0.validators.getD slashed_index defaultValidator).public_key ∧
    (sF.validators.getD slashed_index defaultValidator).effective_balance =
      (state0.validators.getD slashed_index defaultValidator).effective_balance ∧
    (k ≠ ext.currentEpoch state0 context % context.epochs_per_slashings_vector →
      sF.slashings.getD k 0 = state0.slashings.getD k 0) ∧
    (j ≠ slashed_index → j ≠ p → j ≠ wb.getD p →
      sF.balances.getD j 0 = state0.balances.getD j 0) ∧
    sF.previous_epoch_participation = state0.previous_epoch_participation ∧
    sF.current_epoch_participation = state0.current_epoch_participation ∧
    sF.inactivity_scores = state0.inactivity_scores ∧
    sF.previous_justified_checkpoint = state0.previous_justified_checkpoint ∧
    sF.current_justified_checkpoint = state0.current_justified_checkpoint := by
  obtain ⟨hbal, hsl, hpep, hcep, hisc, hpjc, hcjc, hvlen, hvget, hvpk, hveff, hvsl⟩ :=
    hframe state0 slashed_index context
  have hlen1 : slashed_index <
      (ext.initiateValidatorExit state0 slashed_index context).validators.length := by
    rw [hvlen]; exact hlen
  rw [slash_validator_run ext state0 slashed_index wb context q p hlen1 hq hp] at hrun
  injection hrun with hrun
  subst hrun
  refine ⟨?_, ?_, ?_, ?_, ?_, hpep, hcep, hisc, hpjc, hcjc⟩
  · intro hj
    simp only [apply_slash_validator_record]
    rw [get_q_set_ne _ _ _ _ (Ne.symm hj)]
    exact hvget j hj
  · simp only [apply_slash_validator_record]
    rw [getD_set_self _ _ hlen1]
    exact hvpk
  · simp only [apply_slash_validator_record]
    rw [getD_set_self _ _ hlen1]
    exact hveff
  · intro hk
    simp only []
    rw [hsl, hslen, getD_set_ne _ _ _ _ _ (Ne.symm hk)]
  · intro hj hjp hjw
    simp only [apply_slash_balances]
    rw [hbal]
    rw [getD_set_ne _ _ _ _ _ (Ne.symm hjw), getD_set_ne _ _ _ _ _ (Ne.symm hjp),
      getD_set_ne _ _ _ _ _ (Ne.symm hj)]

/-- The state `slash_validator` produces on the C10 witness input (slashed 0,
proposer 1, whistleblower defaulted to 1). -/
def stateC10final : BeaconState :=
  { validators :=
      [{ public_key := 10, effective_balance := 32, slashed := true,
         exit_epoch := 0, withdrawable_epoch := 1 },
       mkValidator 20 32, mkValidator 30 32]
    balances := [99, 42, 20]
    previous_epoch_participation := [0, 0, 0]
    current_epoch_participation := [0, 0, 0]
    inactivity_scores := [0, 0, 0]
    slashings := [32]
    previous_justified_checkpoint := { epoch := 0, root := 0 }
    current_justified_checkpoint := { epoch := 0, root := 0 } }

/-- Witness for C10 at a concrete input, checking untouched validator 2 and
untouched slashings position 5. -/
theorem c10_slash_validator_frame_witness :
    (2 ≠ 0 → stateC10final.validators.get? 2 = stateThree.validators.get? 2) ∧
    (stateC10final.validators.getD 0 defaultValidator).public_key =
      (stateThree.validators.getD 0 defaultValidator).public_key ∧
    (stateC10final.validators.getD 0 defaultValidator).effective_balance =
      (stateThree.validators.getD 0 defaultValidator).effective_balance ∧
    (5 ≠ extProposer1.currentEpoch stateThree ctxBase %
        ctxBase.epochs_per_slashings_vector →
      stateC10final.slashings.getD 5 0 = stateThree.slashings.getD 5 0) ∧
    (2 ≠ 0 → 2 ≠ 1 → 2 ≠ (none : Option Nat).getD 1 →
      stateC10final.balances.getD 2 0 = stateThree.balances.getD 2 0) ∧
    stateC10final.previous_epoch_participation =
      stateThree.previous_epoch_participation ∧
    stateC10final.current_epoch_participation =
      stateThree.current_epoch_participation ∧
    stateC10final.inactivity_scores = stateThree.inactivity_scores ∧
    stateC10final.previous_justified_checkpoint =
      stateThree.previous_justified_checkpoint ∧
    stateC10final.current_justified_checkpoint =
      stateThree.current_justified_checkpoint :=
  c10_slash_validator_frame extProposer1 stateThree 0 none ctxBase 32 1
    stateC10final 2 5 initiate_id_frame (by decide) (by rfl) (fun _ => rfl) (by rfl)
    (by rfl)

/-- Witness for the amended C6 at the concrete counterexample input, where
the result is exactly the TARGET singleton. -/
theorem c6_flag_dependencies_and_source_mismatch_witness :
    (get_attestation_participation_flag_indices extBase stateTwo dataC6 6 ctxBase =
        .ok [TIMELY_TARGET_FLAG_INDEX] →
      (TIMELY_HEAD_FLAG_INDEX ∈ [TIMELY_TARGET_FLAG_INDEX] →
        ctxBase.min_attestation_inclusion_delay ≤ ctxBase.slots_per_epoch →
        TIMELY_TARGET_FLAG_INDEX ∈ [TIMELY_TARGET_FLAG_INDEX]) ∧
      (TIMELY_TARGET_FLAG_INDEX ∈ [TIMELY_TARGET_FLAG_INDEX] →
        6 ≤ integer_sqrt ctxBase.slots_per_epoch →
        TIMELY_SOURCE_FLAG_INDEX ∈ [TIMELY_TARGET_FLAG_INDEX])) ∧
    (dataC6.source ≠ selected_justified_checkpoint extBase stateTwo dataC6 ctxBase →
      get_attestation_participation_flag_indices extBase stateTwo dataC6 6 ctxBase =
        .error (.invalidSource
          (selected_justified_checkpoint extBase stateTwo dataC6 ctxBase)
          dataC6.source (extBase.currentEpoch stateTwo ctxBase))) :=
  c6_flag_dependencies_and_source_mismatch extBase stateTwo dataC6 6 ctxBase
    [TIMELY_TARGET_FLAG_INDEX]
